import Mathlib

/-!
Verification development for the faraday multi-tenant work-order tracking
application. The Python source is shallowly embedded: each service / use-case
method that the properties below talk about is translated into an executable
Lean function over explicit state values (lists of rows standing for the
database tables, a list of paths standing for the files present on disk, and a
natural-number clock standing for `datetime.now()`). Exceptions are modelled
with `Except`, SQL queries with list traversals that mirror the query each
method issues.
-/

/-! ## Python string primitives

The source relies on Python string operations: the substring test `in`,
`str.strip()`, `str.lower()`, `str.rsplit(".", 1)`, and the truthiness of
`None` and `""`. They are embedded as structurally recursive functions on the
character list of a `String` so that every definition evaluates inside the
kernel. -/

/-- Boolean test that the first character list is a prefix of the second. -/
def matchesAt : List Char → List Char → Bool
  | [], _ => true
  | _ :: _, [] => false
  | a :: as, b :: bs => a == b && matchesAt as bs

/-- Boolean test that `nee` occurs as a contiguous run inside `hay`
(at any position, the empty list occurring everywhere). -/
def containsChars (hay nee : List Char) : Bool :=
  match hay with
  | [] => nee.isEmpty
  | _ :: t => matchesAt nee hay || containsChars t nee

/-- Python `needle in haystack` for strings: case-sensitive substring test,
with `"" in s` true for every `s`. -/
def pyIn (needle haystack : String) : Bool :=
  containsChars haystack.data needle.data

/-- Python `str.lower()` on a single character (ASCII case fold, which is all
the source's company codes and file extensions use). -/
def lowerChar (c : Char) : Char :=
  if 'A' ≤ c ∧ c ≤ 'Z' then Char.ofNat (c.toNat + 32) else c

/-- Python `str.lower()`. -/
def lowerStr (s : String) : String := ⟨s.data.map lowerChar⟩

/-- Python `str.strip()`: drop leading and trailing whitespace. -/
def stripStr (s : String) : String :=
  ⟨((s.data.dropWhile Char.isWhitespace).reverse.dropWhile Char.isWhitespace).reverse⟩

/-- Characters after the last `'.'` of the list, or `none` when no dot occurs:
the pieces Python's `filename.rsplit(".", 1)` exposes. -/
def afterLastDot : List Char → Option (List Char)
  | [] => none
  | c :: rest =>
    match afterLastDot rest with
    | some e => some e
    | none => if c == '.' then some rest else none

/-- Python `filename.rsplit(".", 1)[1].lower()` guarded by `"." in filename`:
the lower-cased extension of a filename, `none` when the name has no dot. -/
def strExt (filename : String) : Option String :=
  (afterLastDot filename.data).map (fun l => lowerStr ⟨l⟩)

/-- Python truthiness of a `str`-or-`None` value: `None` and `""` are falsy. -/
def truthyStr : Option String → Bool
  | none => false
  | some s => !(s == "")

/-- Constructor test on `Except`: `true` exactly on `Except.ok`. -/
def exceptIsOk {ε α : Type} : Except ε α → Bool
  | Except.ok _ => true
  | Except.error _ => false

/-! ## Ingestion / matching use case

`HistoriaIniciadosUseCase.set_data_zona`
(src/src/use_cases/historia_ot/historia_iniciados_use_case.py). The JSON
deserialisation (`json.load`) is taken as already done: the embedding receives
the decoded list of records. A record's `"Técnico"` key can be absent, can
hold `None`, or can hold a string; the remaining keys are opaque to the
matcher and are collapsed into a `payload` tag that keeps records
distinguishable. -/

/-- One decoded import record: `tecnicoField = none` is a record without the
`"Técnico"` key, `some none` a record whose `"Técnico"` is JSON `null`, and
`some (some s)` a record with technician text `s`. `payload` stands for all
the other keys, which the matcher never reads. -/
structure Record where
  tecnicoField : Option (Option String)
  payload : Nat
deriving DecidableEq

/-- Python `item.get("Técnico", "")`: the missing key defaults to `""`, a key
holding `None` stays `None`. -/
def tecnicoRaw (item : Record) : Option String :=
  match item.tecnicoField with
  | none => some ""
  | some v => v

/-- The technician text after the source's `if tecnico is None: tecnico = ""`
normalisation. -/
def getTecnico (item : Record) : String := (tecnicoRaw item).getD ""

/-- One row written to `historia_ot_empresas`:
`set_data_to_database(item, zona, empresa_encontrada)`. -/
structure HistoriaRow where
  item : Record
  zona : String
  empresa : String
deriving DecidableEq

/-- `HistoriaIniciadosUseCase.set_data_zona`. `empresaNombres` is the list of
`nombre_toa` company codes loaded once per batch, in directory order. The
first component collects, in processing order, the rows the loop persists via
`set_data_to_database`; the second is `ot_no_ingresadas`, the returned list of
unmatched records. The source's `if empresa_encontrada:` is Python truthiness,
so a successful match on an empty code still lands in the unmatched branch. -/
def set_data_zona (empresaNombres : List String) (zona : String) :
    List Record → List HistoriaRow × List Record
  | [] => ([], [])
  | item :: rest =>
    let tecnico := getTecnico item
    let empresaEncontrada := empresaNombres.find? (fun nombre => pyIn nombre tecnico)
    let prev := set_data_zona empresaNombres zona rest
    match empresaEncontrada with
    | some e =>
      if e == "" then (prev.1, item :: prev.2)
      else (⟨item, zona, e⟩ :: prev.1, prev.2)
    | none => (prev.1, item :: prev.2)

/-! ## Comentarios domain: users, orders, comments

Models for `User` (src/src/models/auth/user.py), `OrdenTrabajo`,
`Comentario` (src/src/models/comentarios.py with the `BaseModel` bookkeeping
columns), and the state the comment use case touches. Timestamps are a `Nat`
clock; each operation that calls `datetime.now()` receives the current clock
value as an argument. -/

/-- A user row together with its `roles` (role names) and `empresas`
(the ids of the companies assigned to the user, as read by
`[empresa.id for empresa in user.empresas]`). -/
structure User where
  id : Nat
  username : String
  roles : List String
  empresas : List Nat
deriving DecidableEq

/-- `User.has_roles`: true when any requested role name is among the user's
role names. -/
def has_roles (user : User) (role_list : List String) : Bool :=
  role_list.any (fun role => user.roles.contains role)

/-- An `orden_trabajo` row: surrogate id, business code, owning company. -/
structure OrdenTrabajo where
  id : Nat
  codigo : String
  id_empresa : Nat
deriving DecidableEq

/-- A `comentarios` row, including the `BaseModel` columns the claims touch
(`created_at`, `updated_at`, `active`). -/
structure Comentario where
  id : Nat
  comentario : String
  num_ticket : String
  imagen_path : Option String
  imagen_original_name : Option String
  id_orden_trabajo : Nat
  id_usuario : Nat
  created_at : Nat
  updated_at : Nat
  active : Bool
deriving DecidableEq

/-- The database state the comment use case reads and writes: the
`orden_trabajo` table, the `comentarios` table, and the primary-key counter
that assigns the next comment id. -/
structure TState where
  ordenes : List OrdenTrabajo
  comentarios : List Comentario
  nextComentarioId : Nat
deriving DecidableEq

/-- `OrdenTrabajoService.get_orden_trabajo_by_codigo`:
`OrdenTrabajo.query.filter_by(codigo=codigo).first()`. -/
def get_orden_trabajo_by_codigo (st : TState) (codigo : String) : Option OrdenTrabajo :=
  st.ordenes.find? (fun ot => ot.codigo == codigo)

/-- `ComentariosUseCase.validate_user_access_to_orden`: the `dev` user and
users holding the `admin` role see everything, anyone else needs the order's
company among their assigned companies. -/
def validate_user_access_to_orden (user : User) (orden_trabajo : OrdenTrabajo) : Bool :=
  let is_admin := user.username == "dev" || has_roles user ["admin"]
  if is_admin then true
  else user.empresas.contains orden_trabajo.id_empresa

/-- `ORDER_ACCESS_DENIED_MESSAGE.format(codigo)`: the one message used both
when the order does not exist and when the user lacks access to it. -/
def ORDER_ACCESS_DENIED_MESSAGE (codigo : String) : String :=
  "Orden de trabajo '" ++ codigo ++ "' no encontrada o el usuario no tiene acceso"

/-! ## Image pipeline (`ImageProcessor`, src/src/utils/image_processor.py)

An upload is its filename (`none` models `FileStorage.filename` being
`None`), its byte size (what `seek`/`tell` report), and whether `PIL` can
decode it (`Image.open(...).verify()`); the pixel processing itself
(`compress_image`) only transforms bytes and is not needed by any claim. The
files a call writes are returned explicitly in a `written` list. -/

/-- An uploaded file as `ImageProcessor` observes it. -/
structure UploadFile where
  filename : Option String
  size : Nat
  decodable : Bool
deriving DecidableEq

/-- `ImageProcessor.ALLOWED_EXTENSIONS` (a Python set; listed in the order of
the source literal). -/
def ALLOWED_EXTENSIONS : List String := ["png", "jpg", "jpeg", "gif", "bmp", "webp"]

/-- `ImageProcessor.MAX_FILE_SIZE`: 10 MiB. -/
def MAX_FILE_SIZE : Nat := 10 * 1024 * 1024

/-- `ImageProcessor.UPLOAD_FOLDER` (`COMENTARIOS_UPLOAD_PATH`); the
environment-dependent `ROOT_PATH` prefix is dropped, which no claim
observes. -/
def UPLOAD_FOLDER : String := "uploads/comentarios"

/-- `ImageProcessor.is_allowed_file`: the name is non-empty, has a dot, and
its lower-cased last extension is in the allowed set. -/
def is_allowed_file (filename : String) : Bool :=
  if filename == "" then false
  else
    match strExt filename with
    | some e => ALLOWED_EXTENSIONS.contains e
    | none => false

/-- `ImageProcessor.validate_file`: `(is_valid, error_message)`. The checks
run in source order: missing filename, extension, size, decodability. -/
def validate_file (file : UploadFile) : Bool × Option String :=
  if !truthyStr file.filename then (false, some "No se proporcionó archivo")
  else if !is_allowed_file (file.filename.getD "") then
    (false, some ("Formato no permitido. Use: " ++ String.intercalate ", " ALLOWED_EXTENSIONS))
  else if file.size > MAX_FILE_SIZE then
    (false, some "Archivo muy grande. Máximo: 10MB")
  else if !file.decodable then (false, some "Archivo no es una imagen válida")
  else (true, none)

/-- `ImageProcessor.generate_filename`: a fresh UUID (passed in, the embedding
of `uuid.uuid4()`), a dot, and the lower-cased extension of the original
filename. The source indexes `rsplit(".", 1)[1]`, which requires a dot; every
caller has run `validate_file` first, and the dotless case is defaulted. -/
def generate_filename (uuid : String) (original_filename : String) : String :=
  uuid ++ "." ++ (strExt original_filename).getD ""

/-- Result of `ImageProcessor.save_image`: the `(success, file_path,
error_message)` triple plus the list of files the call wrote to disk. -/
structure SaveOutcome where
  ok : Bool
  path : Option String
  err : Option String
  written : List String
deriving DecidableEq

/-- `ImageProcessor.save_image`: validate, then write the recompressed image
under the generated filename inside the upload folder. A validation failure
writes nothing. Decodability was checked by `validate_file`, so the
processing branch cannot throw in the model. -/
def save_image (uuid : String) (file : UploadFile) : SaveOutcome :=
  let v := validate_file file
  if v.1 then
    let filename := generate_filename uuid (file.filename.getD "")
    let file_path := UPLOAD_FOLDER ++ "/" ++ filename
    ⟨true, some file_path, none, [file_path]⟩
  else ⟨false, none, v.2, []⟩

/-! ## Comment creation (`ComentariosService` / `ComentariosUseCase`) -/

/-- Errors of the comment use case: Python `ValueError` and `RuntimeError`
with their messages. -/
inductive AppError where
  | valueError (msg : String)
  | runtimeError (msg : String)
deriving DecidableEq

/-- The `Comentario(...)` constructor call followed by `db.session.add` and
`commit` inside `ComentariosService.create_comentario`: a fresh row with the
next id, stripped texts, and `now` timestamps. Returns the new state and the
created row. -/
def create_comentario_row (st : TState) (comentario num_ticket : String)
    (imagen_path imagen_original_name : Option String)
    (id_orden_trabajo id_usuario : Nat) (now : Nat) : TState × Comentario :=
  let row : Comentario :=
    ⟨st.nextComentarioId, stripStr comentario, stripStr num_ticket,
      imagen_path, imagen_original_name, id_orden_trabajo, id_usuario, now, now, true⟩
  (⟨st.ordenes, st.comentarios ++ [row], st.nextComentarioId + 1⟩, row)

/-- Result of `ComentariosService.create_comentario`: the created row or the
raised `ValueError` message, the state after the call, and the files written
during the call. -/
structure CreateOutcome where
  result : Except String Comentario
  state : TState
  written : List String

/-- `ComentariosService.create_comentario`. When an image with a truthy
filename is supplied it goes through `save_image`; a save failure raises
`ValueError("Error al procesar imagen: ...")` before any row is added. -/
def create_comentario (st : TState) (comentario num_ticket : String)
    (id_orden_trabajo id_usuario : Nat) (imagen : Option UploadFile)
    (uuid : String) (now : Nat) : CreateOutcome :=
  match imagen with
  | some file =>
    if truthyStr file.filename then
      let saved := save_image uuid file
      if saved.ok then
        let ins := create_comentario_row st comentario num_ticket
          saved.path file.filename id_orden_trabajo id_usuario now
        ⟨Except.ok ins.2, ins.1, saved.written⟩
      else ⟨Except.error ("Error al procesar imagen: " ++ saved.err.getD ""), st, []⟩
    else
      let ins := create_comentario_row st comentario num_ticket
        none none id_orden_trabajo id_usuario now
      ⟨Except.ok ins.2, ins.1, []⟩
  | none =>
    let ins := create_comentario_row st comentario num_ticket
      none none id_orden_trabajo id_usuario now
    ⟨Except.ok ins.2, ins.1, []⟩

/-- The `comentario_data` dictionary of `ComentariosUseCase.add_comentario`:
the two keys it reads, each possibly missing (`dict.get(..., "")`). -/
structure ComentarioData where
  comentario : Option String
  num_ticket : Option String
deriving DecidableEq

/-- Result of `ComentariosUseCase.add_comentario`: the created comment's id or
the raised error, the state after the call, and the files written. -/
structure AddOutcome where
  result : Except AppError Nat
  state : TState
  written : List String

/-- `ComentariosUseCase.add_comentario`: field validation, then the combined
lookup-and-authorisation gate (one message for both failures), then the
service call, whose exceptions are re-raised as
`RuntimeError("Error al crear el comentario: ...")`. -/
def add_comentario (st : TState) (user : User) (codigo_orden_trabajo : String)
    (comentario_data : ComentarioData) (imagen : Option UploadFile)
    (uuid : String) (now : Nat) : AddOutcome :=
  let comentario_text := stripStr (comentario_data.comentario.getD "")
  let num_ticket := stripStr (comentario_data.num_ticket.getD "")
  if comentario_text == "" || num_ticket == "" then
    ⟨Except.error (AppError.valueError
      "Tanto 'comentario' como 'num_ticket' son requeridos y no pueden estar vacíos"), st, []⟩
  else if comentario_text.length > 256 then
    ⟨Except.error (AppError.valueError
      "El comentario no puede exceder los 256 caracteres"), st, []⟩
  else if num_ticket.length > 32 then
    ⟨Except.error (AppError.valueError
      "El número de ticket no puede exceder los 32 caracteres"), st, []⟩
  else
    match get_orden_trabajo_by_codigo st codigo_orden_trabajo with
    | none =>
      ⟨Except.error (AppError.valueError
        (ORDER_ACCESS_DENIED_MESSAGE codigo_orden_trabajo)), st, []⟩
    | some orden_trabajo =>
      if !validate_user_access_to_orden user orden_trabajo then
        ⟨Except.error (AppError.valueError
          (ORDER_ACCESS_DENIED_MESSAGE codigo_orden_trabajo)), st, []⟩
      else
        let created := create_comentario st comentario_text num_ticket
          orden_trabajo.id user.id imagen uuid now
        match created.result with
        | Except.ok row => ⟨Except.ok row.id, created.state, created.written⟩
        | Except.error e =>
          ⟨Except.error (AppError.runtimeError ("Error al crear el comentario: " ++ e)),
            created.state, created.written⟩

/-- `ComentariosService.get_comentarios_count_by_orden_trabajo`: count of
active comments of the order. -/
def get_comentarios_count_by_orden_trabajo (st : TState) (id_orden_trabajo : Nat) : Nat :=
  ((st.comentarios.filter (fun c => c.active)).filter
    (fun c => c.id_orden_trabajo == id_orden_trabajo)).length

/-- The dictionary `get_comentarios_count_for_orden` returns: the order's
summary fields and the active-comment count. -/
structure CountResult where
  orden_id : Nat
  orden_codigo : String
  orden_id_empresa : Nat
  comentarios_count : Nat
deriving DecidableEq

/-- `ComentariosUseCase.get_comentarios_count_for_orden`: the same combined
lookup-and-authorisation gate as `add_comentario`, then the count. -/
def get_comentarios_count_for_orden (st : TState) (user : User) (codigo : String) :
    Except AppError CountResult :=
  match get_orden_trabajo_by_codigo st codigo with
  | none => Except.error (AppError.valueError (ORDER_ACCESS_DENIED_MESSAGE codigo))
  | some ot =>
    if !validate_user_access_to_orden user ot then
      Except.error (AppError.valueError (ORDER_ACCESS_DENIED_MESSAGE codigo))
    else Except.ok ⟨ot.id, ot.codigo, ot.id_empresa,
      get_comentarios_count_by_orden_trabajo st ot.id⟩

/-- `ComentariosService.get_comentarios_by_orden_trabajo`: the active comments
of the order. The service additionally orders by `created_at` descending,
which permutes the rows for presentation and is not modelled. -/
def get_comentarios_by_orden_trabajo (st : TState) (id_orden_trabajo : Nat) :
    List Comentario :=
  (st.comentarios.filter (fun c => c.active)).filter
    (fun c => c.id_orden_trabajo == id_orden_trabajo)

/-- `ComentariosUseCase.get_comentarios_for_orden`: the gate, then the order
and its active comments. -/
def get_comentarios_for_orden (st : TState) (user : User) (codigo : String) :
    Except AppError (OrdenTrabajo × List Comentario) :=
  match get_orden_trabajo_by_codigo st codigo with
  | none => Except.error (AppError.valueError (ORDER_ACCESS_DENIED_MESSAGE codigo))
  | some ot =>
    if !validate_user_access_to_orden user ot then
      Except.error (AppError.valueError (ORDER_ACCESS_DENIED_MESSAGE codigo))
    else Except.ok (ot, get_comentarios_by_orden_trabajo st ot.id)

/-- `ComentariosService.get_all_comentarios`: the default active-only listing
(`Comentario.active_records()`); the `created_at` descending presentation
order permutes rows and is not modelled. -/
def get_all_comentarios (st : TState) : List Comentario :=
  st.comentarios.filter (fun c => c.active)

/-- `ComentariosService.get_comentario_by_id`: primary-key lookup, inactive
rows included. -/
def get_comentario_by_id (st : TState) (comentario_id : Nat) : Option Comentario :=
  st.comentarios.find? (fun c => c.id == comentario_id)

/-- `BaseModel.soft_delete`: clear `active`, stamp `updated_at`. -/
def soft_delete_row (c : Comentario) (now : Nat) : Comentario :=
  { c with active := false, updated_at := now }

/-- `BaseModel.restore`: set `active`, stamp `updated_at`. -/
def restore_row (c : Comentario) (now : Nat) : Comentario :=
  { c with active := true, updated_at := now }

/-- `ComentariosService.soft_delete_comentario`: look the row up by id,
soft-delete it, commit; `false` when the id resolves to nothing. -/
def svc_soft_delete_comentario (st : TState) (comentario_id : Nat) (now : Nat) :
    Bool × TState :=
  match get_comentario_by_id st comentario_id with
  | none => (false, st)
  | some _ =>
    (true, ⟨st.ordenes,
      st.comentarios.map (fun c => if c.id == comentario_id then soft_delete_row c now else c),
      st.nextComentarioId⟩)

/-- `ComentariosService.restore_comentario`. -/
def svc_restore_comentario (st : TState) (comentario_id : Nat) (now : Nat) :
    Bool × TState :=
  match get_comentario_by_id st comentario_id with
  | none => (false, st)
  | some _ =>
    (true, ⟨st.ordenes,
      st.comentarios.map (fun c => if c.id == comentario_id then restore_row c now else c),
      st.nextComentarioId⟩)

/-- `ComentariosUseCase.soft_delete_comentario`: not-found and already-inactive
are `ValueError`s, a service `False` is a `RuntimeError`; otherwise the
success message is returned with the updated state. -/
def soft_delete_comentario (st : TState) (comentario_id : Nat) (now : Nat) :
    Except AppError String × TState :=
  match get_comentario_by_id st comentario_id with
  | none =>
    (Except.error (AppError.valueError
      ("Comentario con ID " ++ Nat.repr comentario_id ++ " no encontrado")), st)
  | some c =>
    if !c.active then
      (Except.error (AppError.valueError "El comentario ya está inactivo"), st)
    else
      let svc := svc_soft_delete_comentario st comentario_id now
      if svc.1 then
        (Except.ok ("Comentario #" ++ Nat.repr comentario_id ++ " desactivado exitosamente"),
          svc.2)
      else (Except.error (AppError.runtimeError "Error al desactivar el comentario"), svc.2)

/-- `ComentariosUseCase.restore_comentario`. -/
def restore_comentario (st : TState) (comentario_id : Nat) (now : Nat) :
    Except AppError String × TState :=
  match get_comentario_by_id st comentario_id with
  | none =>
    (Except.error (AppError.valueError
      ("Comentario con ID " ++ Nat.repr comentario_id ++ " no encontrado")), st)
  | some c =>
    if c.active then
      (Except.error (AppError.valueError "El comentario ya está activo"), st)
    else
      let svc := svc_restore_comentario st comentario_id now
      if svc.1 then
        (Except.ok ("Comentario #" ++ Nat.repr comentario_id ++ " restaurado exitosamente"),
          svc.2)
      else (Except.error (AppError.runtimeError "Error al restaurar el comentario"), svc.2)

/-! ## PowerBI image endpoint (`serve_comentario_image_powerbi`,
src/src/blueprints/toa/routes.py and api_routes.py, with
`serve_default_placeholder_image` from src/src/utils/image_utils.py) -/

/-- State the endpoint reads: the `comentarios` table and the set of paths
present on disk. -/
structure BiState where
  comentarios : List Comentario
  fs : List String
deriving DecidableEq

/-- The distinct HTTP outcomes a route in the source can produce: a
`send_file` of some path, the in-memory 1x1 transparent PNG, or the aborts
used by the session-authenticated routes. -/
inductive HttpResponse where
  | sendFile (path : String)
  | pixelPng
  | notFound
  | forbidden
  | serverError
deriving DecidableEq

/-- The logo asset path checked by `serve_default_placeholder_image`. -/
def LOGO_PATH : String := "src/app/static/img/logo_cre_blanco.png"

/-- `serve_default_placeholder_image`: the company logo when the asset exists,
else a synthesized 1x1 transparent PNG. -/
def serve_default_placeholder_image (fs : List String) : HttpResponse :=
  if fs.contains LOGO_PATH then HttpResponse.sendFile LOGO_PATH
  else HttpResponse.pixelPng

/-- Python `os.path.isabs`. -/
def is_abs_path (p : String) : Bool := matchesAt "/".data p.data

/-- Python `os.path.join(root, p)` for a relative `p`. -/
def path_join (root p : String) : String := root ++ "/" ++ p

/-- `get_comentario_by_id` against the endpoint's state. -/
def bi_get_comentario_by_id (st : BiState) (comentario_id : Nat) : Option Comentario :=
  st.comentarios.find? (fun c => c.id == comentario_id)

/-- `serve_comentario_image_powerbi`: missing comment, falsy `imagen_path`,
or a file absent from disk all fall back to the placeholder; an existing file
is served with `send_file`. `root` is the environment's `ROOT_PATH`. -/
def serve_comentario_image_powerbi (root : String) (st : BiState) (comentario_id : Nat) :
    HttpResponse :=
  match bi_get_comentario_by_id st comentario_id with
  | none => serve_default_placeholder_image st.fs
  | some comentario =>
    if !truthyStr comentario.imagen_path then serve_default_placeholder_image st.fs
    else
      let p := comentario.imagen_path.getD ""
      let full_image_path := if is_abs_path p then p else path_join root p
      if st.fs.contains full_image_path then HttpResponse.sendFile full_image_path
      else serve_default_placeholder_image st.fs

/-! ## Bulk work-order insert (`OrdenTrabajoUseCase.add_ordenes_trabajo` and
`OrdenTrabajoService.create_ordenes_trabajo_bulk`) -/

/-- One element of the posted batch after the `int(...)` / `str(...)`
coercions: `id_empresa` and the raw `codigo`. -/
structure OtItem where
  id_empresa : Nat
  codigo : String
deriving DecidableEq

/-- A persisted `orden_trabajo` row as the bulk path sees it. -/
structure OrdenRow where
  id_empresa : Nat
  codigo : String
deriving DecidableEq

/-- State of the bulk path: the `empresas_externas_toa` ids and the
`orden_trabajo` table. -/
structure OtState where
  empresas : List Nat
  ordenes : List OrdenRow
deriving DecidableEq

/-- `OrdenTrabajoUseCase.validate_empresa_exists`: the id is among the loaded
company ids. -/
def validate_empresa_exists (st : OtState) (id_empresa : Nat) : Bool :=
  st.empresas.contains id_empresa

/-- `get_orden_trabajo_by_codigo` against the bulk path's state. -/
def ot_get_orden_trabajo_by_codigo (st : OtState) (codigo : String) : Option OrdenRow :=
  st.ordenes.find? (fun o => o.codigo == codigo)

/-- PostgreSQL `INSERT ... ON CONFLICT (codigo) DO NOTHING RETURNING codigo`
over a multi-row `VALUES`: a row is skipped when its `codigo` is already in
the table or was inserted by an earlier row of the same statement. Returns
the table after the statement and the returned (actually inserted) codes in
statement order. -/
def bulk_insert_rows (existing : List OrdenRow) : List OtItem → List OrdenRow × List String
  | [] => (existing, [])
  | item :: rest =>
    if (existing.map (fun o => o.codigo)).contains item.codigo then
      bulk_insert_rows existing rest
    else
      let r := bulk_insert_rows (existing ++ [⟨item.id_empresa, item.codigo⟩]) rest
      (r.1, item.codigo :: r.2)

/-- The service's result dictionary (the success shape; the
database-exception shape that moves every code into `errors` is unreachable
in the pure model and the `errors` field stays empty). -/
structure BulkResult where
  inserted : List String
  not_inserted : List String
  errors : List String
  inserted_count : Nat
  total_count : Nat
  skipped_count : Nat
deriving DecidableEq

/-- `OrdenTrabajoService.create_ordenes_trabajo_bulk`. `not_inserted` is
computed as the source does: every posted code not present in the returned
inserted codes. -/
def create_ordenes_trabajo_bulk (st : OtState) (ordenes_data : List OtItem) :
    BulkResult × OtState :=
  if ordenes_data.isEmpty then (⟨[], [], [], 0, 0, 0⟩, st)
  else
    let all_codigos := ordenes_data.map (fun o => o.codigo)
    let r := bulk_insert_rows st.ordenes ordenes_data
    let inserted_codes := r.2
    let not_inserted_codes := all_codigos.filter (fun codigo => !inserted_codes.contains codigo)
    (⟨inserted_codes, not_inserted_codes, [], inserted_codes.length,
      ordenes_data.length, not_inserted_codes.length⟩,
      ⟨st.empresas, r.1⟩)

/-- The per-item validation loop of `add_ordenes_trabajo` over the enumerated
batch: returns the validated items (with stripped codes) and the error
strings, both in input order. The checks run in source order: empty code,
unknown company, already-existing order. The `isinstance`/key checks are
carried by the typing of `OtItem`. -/
def validate_ordenes (st : OtState) : List (Nat × OtItem) → List OtItem × List String
  | [] => ([], [])
  | (i, orden_data) :: rest =>
    let r := validate_ordenes st rest
    let codigo := stripStr orden_data.codigo
    if codigo == "" then
      (r.1, ("Elemento " ++ Nat.repr i ++ ": El 'codigo' no puede estar vacío") :: r.2)
    else if !validate_empresa_exists st orden_data.id_empresa then
      (r.1, ("Elemento " ++ Nat.repr i ++ ": La empresa con id "
        ++ Nat.repr orden_data.id_empresa ++ " no existe") :: r.2)
    else
      match ot_get_orden_trabajo_by_codigo st codigo with
      | some _ =>
        (r.1, ("Elemento " ++ Nat.repr i ++ ": La orden con código '"
          ++ codigo ++ "' ya existe") :: r.2)
      | none => (⟨orden_data.id_empresa, codigo⟩ :: r.1, r.2)

/-- The use case's success dictionary (`validation_errors` is `errors if
errors else None`, and on this path `errors` is empty, so the field is always
`None` and is omitted). -/
structure OtUseCaseResult where
  message : String
  inserted_count : Nat
  skipped_count : Nat
  total_processed : Nat
deriving DecidableEq

/-- `OrdenTrabajoUseCase.add_ordenes_trabajo`: reject an empty batch, run the
per-item validation, raise `ValueError` with all collected errors when any
item failed, otherwise insert the validated items in one bulk statement and
assemble the response message. -/
def add_ordenes_trabajo (st : OtState) (ordenes_data : List OtItem) :
    Except String OtUseCaseResult × OtState :=
  if ordenes_data.isEmpty then
    (Except.error "Los datos de entrada no pueden estar vacíos", st)
  else
    let v := validate_ordenes st ordenes_data.enum
    if !v.2.isEmpty then
      (Except.error ("Errores de validación: " ++ String.intercalate "; " v.2), st)
    else
      let r := create_ordenes_trabajo_bulk st v.1
      let message_parts :=
        (if r.1.inserted_count > 0 then
          ["Se insertaron " ++ Nat.repr r.1.inserted_count ++ " órdenes nuevas"] else [])
        ++ (if r.1.skipped_count > 0 then
          ["Se omitieron " ++ Nat.repr r.1.skipped_count ++ " órdenes existentes"] else [])
      let message :=
        if message_parts.isEmpty then "No se procesaron órdenes"
        else String.intercalate ". " message_parts
      (Except.ok ⟨message, r.1.inserted_count, r.1.skipped_count, r.1.total_count⟩, r.2)

/-! ## Example values used by witnesses and counterexamples -/

/-- A two-company directory for the ingestion witness. -/
def dirEx : List String := ["ALPHA", "BETA"]

/-- A four-record batch: a matching record, a JSON-null technician, a record
without the technician key, and a second matching record. -/
def recsEx : List Record :=
  [⟨some (some "Juan ALPHA Rodriguez"), 1⟩, ⟨some none, 2⟩, ⟨none, 3⟩,
    ⟨some (some "ana BETA diaz"), 4⟩]

/-- A record with no technician key at all. -/
def recNoTecnico : Record := ⟨none, 0⟩

/-- Bulk-insert state: company 1 exists, no orders yet. -/
def otStateEx : OtState := ⟨[1], []⟩

/-- The batch of claim C3: the same `(1, "A")` item twice. -/
def duplicateBatchEx : List OtItem := [⟨1, "A"⟩, ⟨1, "A"⟩]

/-- The state after submitting `duplicateBatchEx` once through the use case. -/
def otStateAfterFirstCall : OtState := (add_ordenes_trabajo otStateEx duplicateBatchEx).2

/-- Number of persisted order rows carrying the given code. -/
def count_codigo (st : OtState) (codigo : String) : Nat :=
  (st.ordenes.filter (fun o => o.codigo == codigo)).length

/-- A batch whose first item names a nonexistent company and whose second item
is valid. -/
def mixedBatchEx : List OtItem := [⟨2, "B"⟩, ⟨1, "C"⟩]

/-- An order owned by company 2. -/
def ordenEx : OrdenTrabajo := ⟨7, "X", 2⟩

/-- A state with no orders at all. -/
def stEmptyEx : TState := ⟨[], [], 1⟩

/-- A state holding exactly `ordenEx`. -/
def stWithOrdenEx : TState := ⟨[ordenEx], [], 1⟩

/-- A non-admin user assigned only to company 1. -/
def plainUserEx : User := ⟨5, "maria", [], [1]⟩

/-- A valid comment payload. -/
def commentDataEx : ComentarioData := ⟨some "hola", some "T1"⟩

/-- The distinguished `dev` superuser, with no company assignments. -/
def devUserEx : User := ⟨1, "dev", [], []⟩

/-- An active comment on `ordenEx`. -/
def comentarioEx : Comentario := ⟨3, "avance ok", "T9", none, none, 7, 5, 0, 0, true⟩

/-- A state holding `ordenEx` and `comentarioEx`. -/
def stWithComentarioEx : TState := ⟨[ordenEx], [comentarioEx], 4⟩

/-- An upload one byte over the 10 MiB ceiling. -/
def oversizedUploadEx : UploadFile := ⟨some "foto.jpg", 10 * 1024 * 1024 + 1, true⟩

/-- Whether a response carries image bytes (a served file or the synthesized
pixel), as opposed to an abort. -/
def is_image_response : HttpResponse → Bool
  | HttpResponse.sendFile _ => true
  | HttpResponse.pixelPng => true
  | HttpResponse.notFound => false
  | HttpResponse.forbidden => false
  | HttpResponse.serverError => false

/-- A comment whose stored image path names a file that is not on disk. -/
def biComentarioEx : Comentario :=
  ⟨3, "avance ok", "T9", some "uploads/comentarios/u1.jpg", some "foto.jpg", 7, 5, 0, 0, true⟩

/-- Endpoint state: one comment, an empty disk (no logo asset either). -/
def biStateEx : BiState := ⟨[biComentarioEx], []⟩

/-- Python `str.endswith`. -/
def endsWithStr (s suffix : String) : Bool :=
  matchesAt suffix.data.reverse s.data.reverse

/-- A decodable 1000-byte upload named with an upper-case `.PNG` extension. -/
def pngUploadEx : UploadFile := ⟨some "photo.PNG", 1000, true⟩

/-- The property claim C1 states of `set_data_zona`: the unmatched result is
exactly the input records whose technician text contains no company code, in
input order; the persisted rows are exactly the other records, in input order,
each tagged with the zone and the first code in directory order occurring in
its technician text; the two counts add up to the batch size; and every
persisted row's code occurs in its record's technician text. -/
def C1Spec (empresaNombres : List String) (zona : String) (data : List Record) : Prop :=
  (set_data_zona empresaNombres zona data).2
      = data.filter (fun item => !(empresaNombres.any (fun nombre => pyIn nombre (getTecnico item))))
  ∧ (set_data_zona empresaNombres zona data).1
      = (data.filter (fun item => empresaNombres.any (fun nombre => pyIn nombre (getTecnico item)))).map
          (fun item => ⟨item, zona,
            (empresaNombres.find? (fun nombre => pyIn nombre (getTecnico item))).getD ""⟩)
  ∧ (set_data_zona empresaNombres zona data).1.length
      + (set_data_zona empresaNombres zona data).2.length = data.length
  ∧ ∀ row ∈ (set_data_zona empresaNombres zona data).1,
      pyIn row.empresa (getTecnico row.item) = true ∧ row.zona = zona

/-! ## General lemmas -/

/-- The empty character list occurs in every list (Python `"" in s`). -/
theorem containsChars_nil (l : List Char) : containsChars l [] = true := by
  cases l <;> simp [containsChars, matchesAt]

/-- Python `"" in s` is true for every string `s`. -/
theorem pyIn_empty (s : String) : pyIn "" s = true := containsChars_nil s.data

/-- The access-denial message always begins with the letter O, whatever code
is formatted into it. -/
theorem access_denied_message_head (codigo : String) :
    (ORDER_ACCESS_DENIED_MESSAGE codigo).data.head? = some 'O' := rfl

/-- The access-denial message differs from every string that does not begin
with the letter O. -/
theorem access_denied_message_ne (codigo m : String) (hm : m.data.head? ≠ some 'O') :
    ORDER_ACCESS_DENIED_MESSAGE codigo ≠ m := by
  intro h
  exact hm (h ▸ access_denied_message_head codigo)

/-- Looking a row up by id after updating the row of that id in place: the
lookup returns the updated row, provided the update preserves ids. -/
theorem find?_id_map_update (l : List Comentario) (comentario_id : Nat)
    (f : Comentario → Comentario) (hf : ∀ c, (f c).id = c.id) :
    (l.map (fun c => if c.id == comentario_id then f c else c)).find?
        (fun c => c.id == comentario_id)
      = (l.find? (fun c => c.id == comentario_id)).map f := by
  induction l with
  | nil => rfl
  | cons a t ih =>
    by_cases h : a.id = comentario_id
    · have hb : (a.id == comentario_id) = true := beq_iff_eq.mpr h
      have hfa : ((f a).id == comentario_id) = true := by rw [hf a]; exact hb
      have hhead : (if a.id == comentario_id then f a else a) = f a := by simp [hb]
      rw [List.map_cons, hhead]
      rw [show List.find? (fun c => c.id == comentario_id)
            (f a :: List.map (fun c => if c.id == comentario_id then f c else c) t)
            = some (f a) from List.find?_cons_of_pos _ hfa]
      rw [show List.find? (fun c => c.id == comentario_id) (a :: t) = some a from
        List.find?_cons_of_pos _ hb]
      rfl
    · have hb : (a.id == comentario_id) = false := beq_eq_false_iff_ne.mpr h
      have hhead : (if a.id == comentario_id then f a else a) = a := by simp [hb]
      rw [List.map_cons, hhead]
      rw [show List.find? (fun c => c.id == comentario_id)
            (a :: List.map (fun c => if c.id == comentario_id then f c else c) t)
            = List.find? (fun c => c.id == comentario_id)
                (List.map (fun c => if c.id == comentario_id then f c else c) t) from
        List.find?_cons_of_neg _ (by simp [hb])]
      rw [show List.find? (fun c => c.id == comentario_id) (a :: t)
            = List.find? (fun c => c.id == comentario_id) t from
        List.find?_cons_of_neg _ (by simp [hb])]
      exact ih

/-- An upload with a non-empty filename that is oversized, carries a
disallowed extension, or does not decode as an image, fails `validate_file`. -/
theorem validate_file_fails (file : UploadFile) (name : String)
    (hname : file.filename = some name) (hne : name ≠ "")
    (hbad : file.size > MAX_FILE_SIZE ∨ is_allowed_file name = false
      ∨ file.decodable = false) :
    (validate_file file).1 = false := by
  have ht : (!truthyStr file.filename) = false := by
    simp [truthyStr, hname, hne]
  unfold validate_file
  rw [ht]
  simp only [Bool.false_eq_true, if_false, hname, Option.getD_some]
  rcases hbad with hsize | hext | hdec
  · by_cases ha : is_allowed_file name
    · simp [ha, hsize]
    · simp [ha]
  · simp [hext]
  · by_cases ha : is_allowed_file name
    · by_cases hs : file.size > MAX_FILE_SIZE
      · simp [ha, hs]
      · simp [ha, hs, hdec]
    · simp [ha]

/-! ## Claim C1 -/

/-- C1: for every import batch and zone, `set_data_zona` returns exactly the
records whose technician field (a missing or null field read as the empty
string) contains no company short code as a substring, preserving input
order; every other record is persisted exactly once, tagged with the zone and
the first short code in company-directory order occurring as a substring of
its technician field, so the unmatched count plus the persisted count equals
the batch length. The hypothesis that the directory's codes are non-empty
excludes the degenerate empty-code directory, which claim C10 treats
separately. -/
theorem C1_set_data_zona_partition (empresaNombres : List String) (zona : String)
    (data : List Record) (hne : ∀ nombre ∈ empresaNombres, nombre ≠ "") :
    C1Spec empresaNombres zona data := by
  induction data with
  | nil =>
    refine ⟨rfl, rfl, rfl, ?_⟩
    intro row hrow
    simp [set_data_zona] at hrow
  | cons item rest ih =>
    obtain ⟨ih1, ih2, ih3, ih4⟩ := ih
    cases hfind : empresaNombres.find? (fun nombre => pyIn nombre (getTecnico item)) with
    | none =>
      have hany : empresaNombres.any (fun nombre => pyIn nombre (getTecnico item)) = false := by
        rw [List.any_eq_false]
        intro nombre hn
        simpa using List.find?_eq_none.mp hfind nombre hn
      refine ⟨?_, ?_, ?_, ?_⟩
      · simp [C1Spec, set_data_zona, hfind, hany] at ih1 ⊢
        exact ih1
      · simp [C1Spec, set_data_zona, hfind, hany] at ih2 ⊢
        exact ih2
      · simp [C1Spec, set_data_zona, hfind] at ih3 ⊢
        omega
      · intro row hrow
        simp [C1Spec, set_data_zona, hfind] at hrow
        exact ih4 row hrow
    | some e =>
      have hmem : e ∈ empresaNombres := List.mem_of_find?_eq_some hfind
      have hpe : pyIn e (getTecnico item) = true := by
        have h := List.find?_some hfind
        simpa using h
      have hee : (e == "") = false := by
        simp only [beq_eq_false_iff_ne]
        exact hne e hmem
      have hany : empresaNombres.any (fun nombre => pyIn nombre (getTecnico item)) = true :=
        List.any_eq_true.mpr ⟨e, hmem, hpe⟩
      refine ⟨?_, ?_, ?_, ?_⟩
      · simp [C1Spec, set_data_zona, hfind, hee, hany] at ih1 ⊢
        exact ih1
      · simp [C1Spec, set_data_zona, hfind, hee, hany] at ih2 ⊢
        exact ih2
      · simp [C1Spec, set_data_zona, hfind, hee] at ih3 ⊢
        omega
      · intro row hrow
        simp [C1Spec, set_data_zona, hfind, hee] at hrow
        rcases hrow with hrow | hrow
        · subst hrow
          exact ⟨hpe, rfl⟩
        · exact ih4 row hrow

/-- Witness for C1: the partition property evaluated on a concrete directory
and a concrete four-record batch covering the matched, null-technician and
missing-key cases. -/
theorem C1_witness :
    (∀ nombre ∈ dirEx, nombre ≠ "") ∧ C1Spec dirEx "sur" recsEx :=
  ⟨by decide, C1_set_data_zona_partition dirEx "sur" recsEx (by decide)⟩

/-! ## Claim C10 -/

/-- Counterexample to C10: with a directory holding the empty matching code,
a record with no technician key is NOT persisted; it lands in the unmatched
list, because `if empresa_encontrada:` is false for the matched empty
string. -/
theorem C10_counterexample :
    ("" ∈ ([""] : List String))
    ∧ (set_data_zona [""] "sur" [recNoTecnico]).2 = [recNoTecnico]
    ∧ (set_data_zona [""] "sur" [recNoTecnico]).1 = [] := by
  refine ⟨by decide, by decide, by decide⟩

/-- C10 as amended: when the first company code in directory order is the
empty string, the scan matches it for every record, the truthiness test
rejects the match, and so every record of every batch is returned unmatched
and nothing is persisted. -/
theorem C10_amended_empty_code_rejects_all (rest : List String) (zona : String)
    (data : List Record) :
    set_data_zona ("" :: rest) zona data = ([], data) := by
  induction data with
  | nil => rfl
  | cons item d ih =>
    have hfind : ("" :: rest).find? (fun nombre => pyIn nombre (getTecnico item)) = some "" :=
      List.find?_cons_of_pos _ (by simp [pyIn_empty])
    simp [set_data_zona, hfind, ih]

/-! ## Claim C3 -/

/-- Counterexample to C3: after the first submission of the duplicate batch,
the second submission does not yield `inserted=[]` with `not_inserted=["A"]`:
the use case rejects the whole batch with a `ValueError` (the pre-insert
existence check fails both items), and even the service called directly
reports `not_inserted = ["A", "A"]`, one entry per posted item. -/
theorem C3_counterexample :
    exceptIsOk (add_ordenes_trabajo otStateAfterFirstCall duplicateBatchEx).1 = false
    ∧ (create_ordenes_trabajo_bulk otStateAfterFirstCall duplicateBatchEx).1.inserted = []
    ∧ (create_ordenes_trabajo_bulk otStateAfterFirstCall duplicateBatchEx).1.not_inserted
        ≠ ["A"] := by
  refine ⟨by decide, by decide, by decide⟩

/-- C3 as amended: the first call inserts "A" once (`inserted=["A"]`,
`not_inserted=[]`, the in-batch duplicate skipped by the conflict clause);
the second call fails validation with a `ValueError` and leaves the state
unchanged (and the service, called directly on the same state, would report
`inserted=[]`, `not_inserted=["A","A"]`); at no point do two rows with code
"A" exist. -/
theorem C3_amended_two_calls :
    (create_ordenes_trabajo_bulk otStateEx duplicateBatchEx).1.inserted = ["A"]
    ∧ (create_ordenes_trabajo_bulk otStateEx duplicateBatchEx).1.not_inserted = []
    ∧ exceptIsOk (add_ordenes_trabajo otStateEx duplicateBatchEx).1 = true
    ∧ count_codigo otStateAfterFirstCall "A" = 1
    ∧ exceptIsOk (add_ordenes_trabajo otStateAfterFirstCall duplicateBatchEx).1 = false
    ∧ (add_ordenes_trabajo otStateAfterFirstCall duplicateBatchEx).2 = otStateAfterFirstCall
    ∧ (create_ordenes_trabajo_bulk otStateAfterFirstCall duplicateBatchEx).1.inserted = []
    ∧ (create_ordenes_trabajo_bulk otStateAfterFirstCall duplicateBatchEx).1.not_inserted
        = ["A", "A"]
    ∧ count_codigo (create_ordenes_trabajo_bulk otStateAfterFirstCall duplicateBatchEx).2 "A"
        = 1 := by
  refine ⟨by decide, by decide, by decide, by decide, by decide, by decide, by decide,
    by decide, by decide⟩

/-! ## Claim C4 -/

/-- Counterexample to C4: in a batch whose first item names a nonexistent
company and whose second item is valid, the valid sibling is NOT attempted:
the whole call raises `ValueError`, the state is unchanged, and code "C" is
never inserted. -/
theorem C4_counterexample :
    exceptIsOk (add_ordenes_trabajo otStateEx mixedBatchEx).1 = false
    ∧ (add_ordenes_trabajo otStateEx mixedBatchEx).2 = otStateEx
    ∧ count_codigo (add_ordenes_trabajo otStateEx mixedBatchEx).2 "C" = 0 := by
  refine ⟨by decide, by decide, by decide⟩

/-- C4 as amended: failing items are collected in the errors list, but any
validation error aborts the entire batch: the use case raises `ValueError`
listing all item errors and attempts no insert (the state is unchanged).
Only when every item passes validation are the validated items attempted,
all of them, in one bulk statement. -/
theorem C4_amended_validation_aborts_batch (st : OtState) (ordenes_data : List OtItem) :
    ((validate_ordenes st ordenes_data.enum).2 ≠ [] →
      add_ordenes_trabajo st ordenes_data
        = (Except.error ("Errores de validación: "
            ++ String.intercalate "; " (validate_ordenes st ordenes_data.enum).2), st))
    ∧ (ordenes_data ≠ [] → (validate_ordenes st ordenes_data.enum).2 = [] →
      exceptIsOk (add_ordenes_trabajo st ordenes_data).1 = true
      ∧ (add_ordenes_trabajo st ordenes_data).2
          = (create_ordenes_trabajo_bulk st (validate_ordenes st ordenes_data.enum).1).2) := by
  constructor
  · intro herr
    have hnonempty : ordenes_data ≠ [] := by
      intro hnil
      subst hnil
      exact herr rfl
    have hisEmpty : ordenes_data.isEmpty = false := by
      simpa [List.isEmpty_iff] using hnonempty
    have herrEmpty : (validate_ordenes st ordenes_data.enum).2.isEmpty = false := by
      simpa [List.isEmpty_iff] using herr
    simp [add_ordenes_trabajo, hisEmpty, herrEmpty]
  · intro hnonempty hok
    have hisEmpty : ordenes_data.isEmpty = false := by
      simpa [List.isEmpty_iff] using hnonempty
    have hokEmpty : (validate_ordenes st ordenes_data.enum).2.isEmpty = true := by
      simpa [List.isEmpty_iff] using hok
    constructor
    · simp [add_ordenes_trabajo, hisEmpty, hokEmpty, exceptIsOk]
    · simp [add_ordenes_trabajo, hisEmpty, hokEmpty]

/-- Witness for C4: the amended abort behaviour evaluated on the concrete
mixed batch. -/
theorem C4_witness :
    ((validate_ordenes otStateEx mixedBatchEx.enum).2 ≠ []) ∧
      add_ordenes_trabajo otStateEx mixedBatchEx
        = (Except.error ("Errores de validación: "
            ++ String.intercalate "; " (validate_ordenes otStateEx mixedBatchEx.enum).2),
            otStateEx) :=
  ⟨by decide, (C4_amended_validation_aborts_batch otStateEx mixedBatchEx).1 (by decide)⟩

/-! ## Claim C2 -/

/-- C2: for a fixed requested code and a valid comment payload, a state in
which the code resolves to no order and a state in which it resolves to an
order the non-admin user cannot access produce the very same externally
visible failure, for comment creation and for the comment count alike: the
`ValueError` carrying `ORDER_ACCESS_DENIED_MESSAGE` for that code. An
unauthorized caller cannot distinguish a nonexistent order from an
inaccessible one. -/
theorem C2_access_indistinguishable
    (stA stB : TState) (user : User) (codigo : String) (data : ComentarioData)
    (imagen : Option UploadFile) (uuid : String) (now : Nat) (ot : OrdenTrabajo)
    (h1 : (stripStr (data.comentario.getD "") == "") = false)
    (h2 : (stripStr (data.num_ticket.getD "") == "") = false)
    (h3 : ¬ (stripStr (data.comentario.getD "")).length > 256)
    (h4 : ¬ (stripStr (data.num_ticket.getD "")).length > 32)
    (hA : get_orden_trabajo_by_codigo stA codigo = none)
    (hB : get_orden_trabajo_by_codigo stB codigo = some ot)
    (hacc : validate_user_access_to_orden user ot = false) :
    (add_comentario stA user codigo data imagen uuid now).result
        = Except.error (AppError.valueError (ORDER_ACCESS_DENIED_MESSAGE codigo))
    ∧ (add_comentario stB user codigo data imagen uuid now).result
        = Except.error (AppError.valueError (ORDER_ACCESS_DENIED_MESSAGE codigo))
    ∧ (add_comentario stA user codigo data imagen uuid now).result
        = (add_comentario stB user codigo data imagen uuid now).result
    ∧ get_comentarios_count_for_orden stA user codigo
        = Except.error (AppError.valueError (ORDER_ACCESS_DENIED_MESSAGE codigo))
    ∧ get_comentarios_count_for_orden stB user codigo
        = Except.error (AppError.valueError (ORDER_ACCESS_DENIED_MESSAGE codigo))
    ∧ get_comentarios_count_for_orden stA user codigo
        = get_comentarios_count_for_orden stB user codigo := by
  have ha : (add_comentario stA user codigo data imagen uuid now).result
      = Except.error (AppError.valueError (ORDER_ACCESS_DENIED_MESSAGE codigo)) := by
    simp [add_comentario, h1, h2, h3, h4, hA]
  have hb : (add_comentario stB user codigo data imagen uuid now).result
      = Except.error (AppError.valueError (ORDER_ACCESS_DENIED_MESSAGE codigo)) := by
    simp [add_comentario, h1, h2, h3, h4, hB, hacc]
  have hca : get_comentarios_count_for_orden stA user codigo
      = Except.error (AppError.valueError (ORDER_ACCESS_DENIED_MESSAGE codigo)) := by
    simp [get_comentarios_count_for_orden, hA]
  have hcb : get_comentarios_count_for_orden stB user codigo
      = Except.error (AppError.valueError (ORDER_ACCESS_DENIED_MESSAGE codigo)) := by
    simp [get_comentarios_count_for_orden, hB, hacc]
  exact ⟨ha, hb, ha.trans hb.symm, hca, hcb, hca.trans hcb.symm⟩

/-- Witness for C2: a state without order "X" and a state in which "X" belongs
to company 2, queried by a user assigned only to company 1, produce equal
responses. -/
theorem C2_witness :
    (get_orden_trabajo_by_codigo stEmptyEx "X" = none
      ∧ get_orden_trabajo_by_codigo stWithOrdenEx "X" = some ordenEx
      ∧ validate_user_access_to_orden plainUserEx ordenEx = false)
    ∧ (add_comentario stEmptyEx plainUserEx "X" commentDataEx none "u1" 0).result
        = (add_comentario stWithOrdenEx plainUserEx "X" commentDataEx none "u1" 0).result :=
  ⟨⟨by decide, by decide, by decide⟩,
    (C2_access_indistinguishable stEmptyEx stWithOrdenEx plainUserEx "X" commentDataEx
      none "u1" 0 ordenEx (by decide) (by decide) (by decide) (by decide)
      (by decide) (by decide) (by decide)).2.2.1⟩

/-! ## Claim C7 -/

/-- C7: for every existing order, a user named `dev` or holding the `admin`
role passes the access check whatever their company assignments; the comment
count and listing operations succeed, and comment creation never fails with
the access-denial message for that code. -/
theorem C7_admin_bypass (st : TState) (user : User) (codigo : String) (ot : OrdenTrabajo)
    (hlook : get_orden_trabajo_by_codigo st codigo = some ot)
    (hadmin : user.username = "dev" ∨ has_roles user ["admin"] = true) :
    validate_user_access_to_orden user ot = true
    ∧ (∃ r, get_comentarios_count_for_orden st user codigo = Except.ok r)
    ∧ (∃ r, get_comentarios_for_orden st user codigo = Except.ok r)
    ∧ ∀ (data : ComentarioData) (imagen : Option UploadFile) (uuid : String) (now : Nat),
        (add_comentario st user codigo data imagen uuid now).result
          ≠ Except.error (AppError.valueError (ORDER_ACCESS_DENIED_MESSAGE codigo)) := by
  have hv : validate_user_access_to_orden user ot = true := by
    rcases hadmin with h | h
    · simp [validate_user_access_to_orden, h]
    · simp [validate_user_access_to_orden, h]
  have hne1 : ORDER_ACCESS_DENIED_MESSAGE codigo
      ≠ "Tanto 'comentario' como 'num_ticket' son requeridos y no pueden estar vacíos" :=
    access_denied_message_ne codigo _ (by decide)
  have hne2 : ORDER_ACCESS_DENIED_MESSAGE codigo
      ≠ "El comentario no puede exceder los 256 caracteres" :=
    access_denied_message_ne codigo _ (by decide)
  have hne3 : ORDER_ACCESS_DENIED_MESSAGE codigo
      ≠ "El número de ticket no puede exceder los 32 caracteres" :=
    access_denied_message_ne codigo _ (by decide)
  refine ⟨hv, ⟨⟨ot.id, ot.codigo, ot.id_empresa,
      get_comentarios_count_by_orden_trabajo st ot.id⟩, ?_⟩,
    ⟨(ot, get_comentarios_by_orden_trabajo st ot.id), ?_⟩, ?_⟩
  · simp [get_comentarios_count_for_orden, hlook, hv]
  · simp [get_comentarios_for_orden, hlook, hv]
  · intro data imagen uuid now
    by_cases hc1 : (stripStr (data.comentario.getD "") == ""
        || stripStr (data.num_ticket.getD "") == "") = true
    · simp [add_comentario, hc1]
      exact fun h => hne1 h.symm
    · by_cases hc2 : (stripStr (data.comentario.getD "")).length > 256
      · simp [add_comentario, hc1, hc2]
        exact fun h => hne2 h.symm
      · by_cases hc3 : (stripStr (data.num_ticket.getD "")).length > 32
        · simp [add_comentario, hc1, hc2, hc3]
          exact fun h => hne3 h.symm
        · cases hres : (create_comentario st (stripStr (data.comentario.getD ""))
              (stripStr (data.num_ticket.getD "")) ot.id user.id imagen uuid now).result with
          | ok row => simp [add_comentario, hc1, hc2, hc3, hlook, hv, hres]
          | error e => simp [add_comentario, hc1, hc2, hc3, hlook, hv, hres]

/-- Witness for C7: the `dev` user, assigned to no company at all, passes the
gate on an order owned by company 2. -/
theorem C7_witness :
    get_orden_trabajo_by_codigo stWithOrdenEx "X" = some ordenEx
    ∧ (validate_user_access_to_orden devUserEx ordenEx = true
      ∧ (∃ r, get_comentarios_count_for_orden stWithOrdenEx devUserEx "X" = Except.ok r)
      ∧ (∃ r, get_comentarios_for_orden stWithOrdenEx devUserEx "X" = Except.ok r)
      ∧ ∀ (data : ComentarioData) (imagen : Option UploadFile) (uuid : String) (now : Nat),
          (add_comentario stWithOrdenEx devUserEx "X" data imagen uuid now).result
            ≠ Except.error (AppError.valueError (ORDER_ACCESS_DENIED_MESSAGE "X"))) :=
  ⟨by decide, C7_admin_bypass stWithOrdenEx devUserEx "X" ordenEx (by decide) (Or.inl rfl)⟩

/-! ## Claim C8 -/

/-- C8: soft-deleting an active comment and then restoring it succeeds,
returns the row to the default active-only listing with its id, body and
ticket number unchanged, and `updated_at` strictly advances on each of the
two transitions (given that the clock strictly advances between the stamps,
as `datetime.now()` does between successive requests). While deleted, the row
is absent from the active-only listing. -/
theorem C8_soft_delete_restore (st : TState) (c : Comentario) (t1 t2 : Nat)
    (hlook : get_comentario_by_id st c.id = some c)
    (hact : c.active = true)
    (h1 : c.updated_at < t1) (h2 : t1 < t2) :
    exceptIsOk (soft_delete_comentario st c.id t1).1 = true
    ∧ get_comentario_by_id (soft_delete_comentario st c.id t1).2 c.id
        = some (soft_delete_row c t1)
    ∧ soft_delete_row c t1 ∉ get_all_comentarios (soft_delete_comentario st c.id t1).2
    ∧ exceptIsOk (restore_comentario (soft_delete_comentario st c.id t1).2 c.id t2).1 = true
    ∧ get_comentario_by_id
          (restore_comentario (soft_delete_comentario st c.id t1).2 c.id t2).2 c.id
        = some (restore_row (soft_delete_row c t1) t2)
    ∧ restore_row (soft_delete_row c t1) t2
        ∈ get_all_comentarios
            (restore_comentario (soft_delete_comentario st c.id t1).2 c.id t2).2
    ∧ (restore_row (soft_delete_row c t1) t2).id = c.id
    ∧ (restore_row (soft_delete_row c t1) t2).comentario = c.comentario
    ∧ (restore_row (soft_delete_row c t1) t2).num_ticket = c.num_ticket
    ∧ (restore_row (soft_delete_row c t1) t2).active = true
    ∧ c.updated_at < (soft_delete_row c t1).updated_at
    ∧ (soft_delete_row c t1).updated_at < (restore_row (soft_delete_row c t1) t2).updated_at := by
  have hdel : soft_delete_comentario st c.id t1
      = (Except.ok ("Comentario #" ++ Nat.repr c.id ++ " desactivado exitosamente"),
          ⟨st.ordenes,
            st.comentarios.map (fun x => if x.id == c.id then soft_delete_row x t1 else x),
            st.nextComentarioId⟩) := by
    simp [soft_delete_comentario, hlook, hact, svc_soft_delete_comentario]
  have hlook1 : get_comentario_by_id (soft_delete_comentario st c.id t1).2 c.id
      = some (soft_delete_row c t1) := by
    rw [hdel]
    show (st.comentarios.map (fun x => if x.id == c.id then soft_delete_row x t1 else x)).find?
        (fun x => x.id == c.id) = some (soft_delete_row c t1)
    rw [find?_id_map_update st.comentarios c.id (fun x => soft_delete_row x t1) (fun _ => rfl)]
    rw [show st.comentarios.find? (fun x => x.id == c.id) = some c from hlook]
    rfl
  have hres : restore_comentario (soft_delete_comentario st c.id t1).2 c.id t2
      = (Except.ok ("Comentario #" ++ Nat.repr c.id ++ " restaurado exitosamente"),
          ⟨(soft_delete_comentario st c.id t1).2.ordenes,
            (soft_delete_comentario st c.id t1).2.comentarios.map
              (fun x => if x.id == c.id then restore_row x t2 else x),
            (soft_delete_comentario st c.id t1).2.nextComentarioId⟩) := by
    simp [restore_comentario, hlook1, soft_delete_row, svc_restore_comentario]
  have hlook2 : get_comentario_by_id
      (restore_comentario (soft_delete_comentario st c.id t1).2 c.id t2).2 c.id
      = some (restore_row (soft_delete_row c t1) t2) := by
    rw [hres]
    show ((soft_delete_comentario st c.id t1).2.comentarios.map
        (fun x => if x.id == c.id then restore_row x t2 else x)).find?
        (fun x => x.id == c.id) = some (restore_row (soft_delete_row c t1) t2)
    rw [find?_id_map_update _ c.id (fun x => restore_row x t2) (fun _ => rfl)]
    rw [show (soft_delete_comentario st c.id t1).2.comentarios.find? (fun x => x.id == c.id)
        = some (soft_delete_row c t1) from hlook1]
    rfl
  refine ⟨?_, hlook1, ?_, ?_, hlook2, ?_, rfl, rfl, rfl, rfl, ?_, ?_⟩
  · rw [hdel]; rfl
  · intro hmem
    have := (List.mem_filter.mp hmem).2
    simp [soft_delete_row] at this
  · rw [hres]; rfl
  · have hmem : restore_row (soft_delete_row c t1) t2
        ∈ (restore_comentario (soft_delete_comentario st c.id t1).2 c.id t2).2.comentarios :=
      List.mem_of_find?_eq_some hlook2
    exact List.mem_filter.mpr ⟨hmem, by simp [restore_row]⟩
  · simpa [soft_delete_row] using h1
  · simpa [soft_delete_row, restore_row] using h2

/-- Witness for C8: the round trip evaluated on a concrete active comment with
clock values 0 (creation), 1 (delete), 2 (restore). -/
theorem C8_witness :
    (get_comentario_by_id stWithComentarioEx 3 = some comentarioEx
      ∧ comentarioEx.active = true ∧ comentarioEx.updated_at < 1 ∧ 1 < 2)
    ∧ (get_comentario_by_id
          (restore_comentario (soft_delete_comentario stWithComentarioEx 3 1).2 3 2).2 3
        = some (restore_row (soft_delete_row comentarioEx 1) 2)
      ∧ restore_row (soft_delete_row comentarioEx 1) 2
          ∈ get_all_comentarios
              (restore_comentario (soft_delete_comentario stWithComentarioEx 3 1).2 3 2).2
      ∧ (restore_row (soft_delete_row comentarioEx 1) 2).comentario = comentarioEx.comentario
      ∧ (restore_row (soft_delete_row comentarioEx 1) 2).num_ticket = comentarioEx.num_ticket) :=
  ⟨⟨by decide, by decide, by decide, by decide⟩,
    by
      have h := C8_soft_delete_restore stWithComentarioEx comentarioEx 1 2
        (by decide) (by decide) (by decide) (by decide)
      exact ⟨h.2.2.2.2.1, h.2.2.2.2.2.1, h.2.2.2.2.2.2.2.1, h.2.2.2.2.2.2.2.2.1⟩⟩

/-! ## Claim C5 -/

/-- C5: a comment-creation request carrying an upload (non-empty filename)
that exceeds 10 MiB, or has a disallowed extension, or whose bytes do not
decode as an image, fails: the result is an error, no file is written to the
upload directory, and the comment table is left exactly as it was. -/
theorem C5_invalid_upload_rejected (st : TState) (user : User) (codigo : String)
    (data : ComentarioData) (file : UploadFile) (name uuid : String) (now : Nat)
    (hname : file.filename = some name) (hne : name ≠ "")
    (hbad : file.size > MAX_FILE_SIZE ∨ is_allowed_file name = false
      ∨ file.decodable = false) :
    exceptIsOk (add_comentario st user codigo data (some file) uuid now).result = false
    ∧ (add_comentario st user codigo data (some file) uuid now).state = st
    ∧ (add_comentario st user codigo data (some file) uuid now).written = [] := by
  have hval : (validate_file file).1 = false := validate_file_fails file name hname hne hbad
  have ht : truthyStr file.filename = true := by simp [truthyStr, hname, hne]
  have hsave : save_image uuid file = ⟨false, none, (validate_file file).2, []⟩ := by
    unfold save_image
    simp [hval]
  have hcreate : ∀ (a b : String) (i u : Nat),
      create_comentario st a b i u (some file) uuid now
        = ⟨Except.error ("Error al procesar imagen: " ++ (validate_file file).2.getD ""),
            st, []⟩ := by
    intro a b i u
    unfold create_comentario
    simp [ht, hsave]
  by_cases hc1 : (stripStr (data.comentario.getD "") == ""
      || stripStr (data.num_ticket.getD "") == "") = true
  · simp [add_comentario, hc1, exceptIsOk]
  · by_cases hc2 : (stripStr (data.comentario.getD "")).length > 256
    · simp [add_comentario, hc1, hc2, exceptIsOk]
    · by_cases hc3 : (stripStr (data.num_ticket.getD "")).length > 32
      · simp [add_comentario, hc1, hc2, hc3, exceptIsOk]
      · cases hlook : get_orden_trabajo_by_codigo st codigo with
        | none => simp [add_comentario, hc1, hc2, hc3, hlook, exceptIsOk]
        | some ot =>
          by_cases hacc : validate_user_access_to_orden user ot
          · simp [add_comentario, hc1, hc2, hc3, hlook, hacc, hcreate, exceptIsOk]
          · simp [add_comentario, hc1, hc2, hc3, hlook, hacc, exceptIsOk]

/-- Witness for C5: an upload one byte over the size ceiling, posted by an
authorized user on an existing order with a valid comment payload, is
rejected without a file write or a comment row. -/
theorem C5_witness :
    (oversizedUploadEx.filename = some "foto.jpg"
      ∧ oversizedUploadEx.size > MAX_FILE_SIZE)
    ∧ (exceptIsOk (add_comentario stWithOrdenEx devUserEx "X" commentDataEx
          (some oversizedUploadEx) "u1" 0).result = false
      ∧ (add_comentario stWithOrdenEx devUserEx "X" commentDataEx
          (some oversizedUploadEx) "u1" 0).state = stWithOrdenEx
      ∧ (add_comentario stWithOrdenEx devUserEx "X" commentDataEx
          (some oversizedUploadEx) "u1" 0).written = []) :=
  ⟨⟨by decide, by decide⟩,
    C5_invalid_upload_rejected stWithOrdenEx devUserEx "X" commentDataEx
      oversizedUploadEx "foto.jpg" "u1" 0 (by decide) (by decide) (Or.inl (by decide))⟩

/-! ## Claim C6 -/

/-- C6: for every state and comment id the PowerBI image endpoint answers
with image content, never with a 404 or 500: the stored file is served when
the comment exists, has a truthy image path and the file is on disk; in every
other case (missing comment, no image path, file gone) the placeholder is
served, which is the configured logo when present and a synthesized 1x1
transparent PNG otherwise. -/
theorem C6_powerbi_always_serves_image (root : String) (st : BiState) (comentario_id : Nat) :
    is_image_response (serve_comentario_image_powerbi root st comentario_id) = true
    ∧ serve_comentario_image_powerbi root st comentario_id ≠ HttpResponse.notFound
    ∧ serve_comentario_image_powerbi root st comentario_id ≠ HttpResponse.serverError
    ∧ (bi_get_comentario_by_id st comentario_id = none →
        serve_comentario_image_powerbi root st comentario_id
          = serve_default_placeholder_image st.fs)
    ∧ (∀ c, bi_get_comentario_by_id st comentario_id = some c →
        truthyStr c.imagen_path = false →
        serve_comentario_image_powerbi root st comentario_id
          = serve_default_placeholder_image st.fs)
    ∧ (∀ c p, bi_get_comentario_by_id st comentario_id = some c →
        c.imagen_path = some p → (p == "") = false →
        (((if is_abs_path p then p else path_join root p) ∈ st.fs →
          serve_comentario_image_powerbi root st comentario_id
            = HttpResponse.sendFile (if is_abs_path p then p else path_join root p))
        ∧ ((if is_abs_path p then p else path_join root p) ∉ st.fs →
          serve_comentario_image_powerbi root st comentario_id
            = serve_default_placeholder_image st.fs)))
    ∧ (LOGO_PATH ∈ st.fs →
        serve_default_placeholder_image st.fs = HttpResponse.sendFile LOGO_PATH)
    ∧ (LOGO_PATH ∉ st.fs →
        serve_default_placeholder_image st.fs = HttpResponse.pixelPng) := by
  have hplace : is_image_response (serve_default_placeholder_image st.fs) = true := by
    by_cases hl : LOGO_PATH ∈ st.fs
    · simp [serve_default_placeholder_image, hl, is_image_response]
    · simp [serve_default_placeholder_image, hl, is_image_response]
  have himg : is_image_response (serve_comentario_image_powerbi root st comentario_id)
      = true := by
    unfold serve_comentario_image_powerbi
    cases hc : bi_get_comentario_by_id st comentario_id with
    | none => exact hplace
    | some c =>
      by_cases hp : truthyStr c.imagen_path
      · by_cases hfs : (if is_abs_path (c.imagen_path.getD "") then c.imagen_path.getD ""
            else path_join root (c.imagen_path.getD "")) ∈ st.fs
        · simp [hp, hfs, is_image_response]
        · simp [hp, hfs, hplace]
      · simp [hp, hplace]
  refine ⟨himg, ?_, ?_, ?_, ?_, ?_, ?_, ?_⟩
  · intro h
    rw [h] at himg
    simp [is_image_response] at himg
  · intro h
    rw [h] at himg
    simp [is_image_response] at himg
  · intro hc
    simp [serve_comentario_image_powerbi, hc]
  · intro c hc hp
    simp [serve_comentario_image_powerbi, hc, hp]
  · intro c p hc hp hpne
    have hps : truthyStr (some p) = true := by simp [truthyStr, hpne]
    constructor
    · intro hfs
      simp [serve_comentario_image_powerbi, hc, hp, hps, hfs]
    · intro hfs
      simp [serve_comentario_image_powerbi, hc, hp, hps, hfs]
  · intro hl
    simp [serve_default_placeholder_image, hl]
  · intro hl
    simp [serve_default_placeholder_image, hl]

/-- Witness for C6: a nonexistent comment id and a comment whose stored file
is missing from disk both answer with the placeholder (here the synthesized
pixel, the logo asset being absent as well), never an abort. -/
theorem C6_witness :
    is_image_response (serve_comentario_image_powerbi "/app" biStateEx 99) = true
    ∧ (bi_get_comentario_by_id biStateEx 99 = none
      ∧ serve_comentario_image_powerbi "/app" biStateEx 99
          = serve_default_placeholder_image biStateEx.fs)
    ∧ serve_comentario_image_powerbi "/app" biStateEx 3
        = serve_default_placeholder_image biStateEx.fs :=
  ⟨(C6_powerbi_always_serves_image "/app" biStateEx 99).1,
    ⟨by decide, (C6_powerbi_always_serves_image "/app" biStateEx 99).2.2.2.1 (by decide)⟩,
    ((C6_powerbi_always_serves_image "/app" biStateEx 3).2.2.2.2.2.1 biComentarioEx
      "uploads/comentarios/u1.jpg" (by decide) (by decide) (by decide)).2 (by decide)⟩

/-! ## Claim C9 -/

/-- Counterexample to C9: a successfully stored upload named `photo.PNG` is
saved under `<uuid>.png`, not under a `.jpg` name: the original extension is
kept (lower-cased), only the content is re-encoded as JPEG. -/
theorem C9_counterexample :
    (save_image "123e4567" pngUploadEx).ok = true
    ∧ (save_image "123e4567" pngUploadEx).path
        = some "uploads/comentarios/123e4567.png"
    ∧ endsWithStr ((save_image "123e4567" pngUploadEx).path.getD "") ".jpg" = false := by
  refine ⟨by decide, by decide, by decide⟩

/-- C9 as amended: every successfully stored image lands at
`<upload folder>/<uuid>.<ext>` where `<uuid>` is the freshly generated UUID
and `<ext>` is the upload's own extension, lower-cased; the fixed `.jpg`
suffix the spec describes is not what `generate_filename` produces, the JPEG
re-encoding notwithstanding. -/
theorem C9_amended_original_extension_kept (uuid : String) (file : UploadFile)
    (name e : String) (hname : file.filename = some name)
    (hval : (validate_file file).1 = true) (hext : strExt name = some e) :
    (save_image uuid file).ok = true
    ∧ (save_image uuid file).path = some (UPLOAD_FOLDER ++ "/" ++ (uuid ++ "." ++ e))
    ∧ (save_image uuid file).written = [UPLOAD_FOLDER ++ "/" ++ (uuid ++ "." ++ e)] := by
  refine ⟨?_, ?_, ?_⟩ <;>
    simp [save_image, generate_filename, hval, hname, hext]

/-- Witness for C9: the amended path shape evaluated on the `.PNG` upload. -/
theorem C9_witness :
    (pngUploadEx.filename = some "photo.PNG"
      ∧ (validate_file pngUploadEx).1 = true
      ∧ strExt "photo.PNG" = some "png")
    ∧ ((save_image "u7" pngUploadEx).ok = true
      ∧ (save_image "u7" pngUploadEx).path
          = some (UPLOAD_FOLDER ++ "/" ++ ("u7" ++ "." ++ "png"))
      ∧ (save_image "u7" pngUploadEx).written
          = [UPLOAD_FOLDER ++ "/" ++ ("u7" ++ "." ++ "png")]) :=
  ⟨⟨by decide, by decide, by decide⟩,
    C9_amended_original_extension_kept "u7" pngUploadEx "photo.PNG" "png"
      (by decide) (by decide) (by decide)⟩
